import Mathlib

/-!
Verification of the Restaurant-Table-Booking backend against its
natural-language specification.

The Python sources under the backend package are shallowly embedded here:
machine times are minutes-of-day as `Nat`, instants are minutes since the
proleptic-Gregorian epoch as `Int` (matching `datetime.toordinal`
arithmetic), confidences (exact multiples of 0.05 in the source) are
stored in hundredths as `Nat`, and Python dictionaries become
structures with `Option` fields.  Regex-based scanners are specialised to
the concrete patterns the code uses; comments on each definition name the
source function and line range it embeds.
-/

set_option autoImplicit false

namespace Booking

/-- Python `str.lower` restricted to ASCII, applied characterwise. -/
def lowerChars (l : List Char) : List Char := l.map Char.toLower

/-- The whitespace characters of the Python `\s` class (ASCII range). -/
def isPySpace (c : Char) : Bool :=
  c = ' ' || c = '\t' || c = '\n' || c = '\r' || c = '\x0b' || c = '\x0c'

/-- A character of the Python `\w` class (ASCII range): letter, digit or
underscore. -/
def isWordChar (c : Char) : Bool := c.isAlpha || c.isDigit || c = '_'

/-- Split a character list at runs of characters satisfying `p`, dropping
empty pieces, as Python `str.split()` does. -/
def splitByAux (p : Char → Bool) : List Char → List Char → List (List Char)
  | [], acc => if acc.isEmpty then [] else [acc.reverse]
  | c :: cs, acc =>
    if p c then
      if acc.isEmpty then splitByAux p cs []
      else acc.reverse :: splitByAux p cs []
    else splitByAux p cs (c :: acc)

def splitBy (p : Char → Bool) (l : List Char) : List (List Char) :=
  splitByAux p l []

/-- Split at single space characters (used on already-normalized text). -/
def splitOnSpaces (l : List Char) : List (List Char) := splitBy (· = ' ') l

/-- Drop trailing characters satisfying `p`. -/
def dropTrailing (p : Char → Bool) (l : List Char) : List Char :=
  (l.reverse.dropWhile p).reverse

/-- Python `str.strip()` on a character list. -/
def stripChars (l : List Char) : List Char :=
  dropTrailing isPySpace (l.dropWhile isPySpace)

/-- Is `needle` a prefix of `hay`? -/
def charsBegin : List Char → List Char → Bool
  | [], _ => true
  | _ :: _, [] => false
  | a :: as, b :: bs => a = b && charsBegin as bs

/-- Python substring containment `needle in hay` (empty needle matches). -/
def charsContain (needle : List Char) : List Char → Bool
  | [] => needle.isEmpty
  | b :: bs => charsBegin needle (b :: bs) || charsContain needle bs

/-- `GeminiService._normalize_text` (gemini_service.py lines 205-211) as a
token list: lowercase, replace every non-word character by a space, then
split on whitespace.  The source collapses spaces and strips; the word
list determines that result uniquely. -/
def normWordsC (s : String) : List (List Char) :=
  splitOnSpaces (s.data.map (fun c =>
    let lc := Char.toLower c
    if isWordChar lc then lc else ' '))

/-- Join words back with single spaces: the normalized text itself. -/
def joinWords : List (List Char) → List Char
  | [] => []
  | [w] => w
  | w :: ws => w ++ ' ' :: joinWords ws

/-- The normalized text of `GeminiService._normalize_text` as characters. -/
def normalizeText (s : String) : List Char := joinWords (normWordsC s)

/-- Numeric value of a run of decimal digits (most significant first). -/
def digitsVal (l : List Char) : Nat :=
  l.foldl (fun a c => a * 10 + (c.toNat - 48)) 0

def isDigitChar (c : Char) : Bool := '0' ≤ c && c ≤ '9'

def allDigits (l : List Char) : Bool := l.all isDigitChar

/-- Decimal digits of a natural number (no padding). -/
def natDecAux (n : Nat) (acc : List Char) : List Char :=
  if h : n < 10 then Char.ofNat (48 + n) :: acc
  else natDecAux (n / 10) (Char.ofNat (48 + n % 10) :: acc)
termination_by n
decreasing_by exact Nat.div_lt_self (by omega) (by omega)

def natDec (n : Nat) : String := String.mk (natDecAux n [])

def intDec (n : Int) : String :=
  if n < 0 then "-" ++ natDec (-n).toNat else natDec n.toNat

/-- Two-digit zero-padded decimal, for `strftime` of hours and minutes. -/
def pad2 (n : Nat) : String :=
  String.mk [Char.ofNat (48 + n / 10 % 10), Char.ofNat (48 + n % 10)]

/-- `strftime("%H:%M")` of a minutes-of-day value. -/
def formatHM (t : Nat) : String := pad2 (t / 60) ++ ":" ++ pad2 (t % 60)

/-- Split a character list at every colon, keeping empty pieces (the
behaviour needed to model exact `strptime` matching). -/
def splitColon : List Char → List (List Char)
  | [] => [[]]
  | c :: cs =>
    if c = ':' then [] :: splitColon cs
    else
      match splitColon cs with
      | w :: ws => (c :: w) :: ws
      | [] => [[c]]

/-- `datetime.strptime(s, "%H:%M")` returning minutes of day.  `%H` is one
or two digits up to 23, `%M` one or two digits up to 59, and the whole
string must be consumed. -/
def parseHM (s : String) : Option Nat :=
  match splitColon s.data with
  | [h, m] =>
    if h ≠ [] ∧ h.length ≤ 2 ∧ allDigits h ∧ m ≠ [] ∧ m.length ≤ 2 ∧ allDigits m
        ∧ digitsVal h ≤ 23 ∧ digitsVal m ≤ 59 then
      some (digitsVal h * 60 + digitsVal m)
    else none
  | _ => none

/-- `datetime.strptime(s, "%I:%M %p")` returning minutes of day: a 1-12
hour, minutes, at least one whitespace character, then AM or PM in any
case. -/
def parse12 (s : String) : Option Nat :=
  match splitColon s.data with
  | [h, rest] =>
    let m := rest.takeWhile isDigitChar
    let tail := rest.drop m.length
    let sp := tail.takeWhile isPySpace
    let ampm := lowerChars (tail.drop sp.length)
    if h ≠ [] ∧ h.length ≤ 2 ∧ allDigits h ∧ 1 ≤ digitsVal h ∧ digitsVal h ≤ 12
        ∧ m ≠ [] ∧ m.length ≤ 2 ∧ digitsVal m ≤ 59 ∧ sp ≠ []
        ∧ (ampm = ['a', 'm'] ∨ ampm = ['p', 'm']) then
      some (((digitsVal h % 12) + (if ampm = ['p', 'm'] then 12 else 0)) * 60
        + digitsVal m)
    else none
  | _ => none

/-- The two time formats tried by `validate_reservation_time` (lines
33-42): 24-hour first, then 12-hour. -/
def parseTimeAny (s : String) : Option Nat :=
  match parseHM s with
  | some t => some t
  | none => parse12 s

/-! ## Calendar -/

inductive Weekday where
  | monday | tuesday | wednesday | thursday | friday | saturday | sunday
deriving DecidableEq, BEq

def Weekday.toIndex : Weekday → Nat
  | .monday => 0 | .tuesday => 1 | .wednesday => 2 | .thursday => 3
  | .friday => 4 | .saturday => 5 | .sunday => 6

def Weekday.ofIndex (n : Nat) : Weekday :=
  match n % 7 with
  | 0 => .monday | 1 => .tuesday | 2 => .wednesday | 3 => .thursday
  | 4 => .friday | 5 => .saturday | _ => .sunday

def dayNameLower : Weekday → String
  | .monday => "monday" | .tuesday => "tuesday" | .wednesday => "wednesday"
  | .thursday => "thursday" | .friday => "friday" | .saturday => "saturday"
  | .sunday => "sunday"

def dayNameCap : Weekday → String
  | .monday => "Monday" | .tuesday => "Tuesday" | .wednesday => "Wednesday"
  | .thursday => "Thursday" | .friday => "Friday" | .saturday => "Saturday"
  | .sunday => "Sunday"

structure Date where
  year : Nat
  month : Nat
  day : Nat
deriving DecidableEq

def isLeap (y : Nat) : Bool := (y % 4 = 0 && y % 100 ≠ 0) || y % 400 = 0

def daysInMonth (y m : Nat) : Nat :=
  if m = 2 then (if isLeap y then 29 else 28)
  else if m = 4 ∨ m = 6 ∨ m = 9 ∨ m = 11 then 30
  else 31

def daysBeforeYear (y : Nat) : Nat :=
  365 * (y - 1) + (y - 1) / 4 - (y - 1) / 100 + (y - 1) / 400

def daysBeforeMonth (y m : Nat) : Nat :=
  (List.range (m - 1)).foldl (fun acc i => acc + daysInMonth y (i + 1)) 0

/-- `datetime.date.toordinal`: day 1 is 0001-01-01 (a Monday). -/
def toOrdinal (d : Date) : Nat :=
  daysBeforeYear d.year + daysBeforeMonth d.year d.month + d.day

/-- `date.weekday()` mapped onto `Weekday` (Monday = 0). -/
def dateWeekday (d : Date) : Weekday := Weekday.ofIndex ((toOrdinal d + 6) % 7)

/-- `datetime.strptime(s, "%Y-%m-%d")`: four-digit year, 1-2 digit month
1..12, 1-2 digit day checked against the month length. -/
def parseDate (s : String) : Option Date :=
  match s.data.filter (· = '-') , (splitBy (· = '-') s.data) with
  | ['-', '-'], [y, m, d] =>
    if y.length = 4 ∧ allDigits y ∧ 1 ≤ digitsVal y
        ∧ m ≠ [] ∧ m.length ≤ 2 ∧ allDigits m ∧ 1 ≤ digitsVal m ∧ digitsVal m ≤ 12
        ∧ d ≠ [] ∧ d.length ≤ 2 ∧ allDigits d ∧ 1 ≤ digitsVal d
        ∧ digitsVal d ≤ daysInMonth (digitsVal y) (digitsVal m) then
      some ⟨digitsVal y, digitsVal m, digitsVal d⟩
    else none
  | _, _ => none

/-- The instant of a date and a minutes-of-day value, in minutes on the
`toordinal` axis.  The zoneinfo machinery in the source only decides which
wall clock `now` is read from; both sides of the comparison live on one
such axis, which is the one used here. -/
def instantOf (d : Date) (t : Nat) : Int := (toOrdinal d : Int) * 1440 + t

/-! ## Data model -/

/-- One entry of an `operating_hours` dictionary. -/
structure DayHours where
  «open» : String
  «close» : String
  is_closed : Bool
deriving DecidableEq

/-- A restaurant document as the matching and validation code reads it:
`id`, `name`, `operating_hours` (a per-weekday dictionary, embedded as an
association list) and an optional `timezone`.  The timezone only selects
the wall clock that `now` parameters are read from. -/
structure Restaurant where
  id : Nat
  name : String
  operating_hours : List (Weekday × DayHours) := []
  timezone : Option String := none
deriving DecidableEq

/-- `operating_hours.get(day_name)`. -/
def getOH (hours : List (Weekday × DayHours)) (d : Weekday) : Option DayHours :=
  match hours.find? (fun p => p.1 == d) with
  | some p => some p.2
  | none => none

/-! ## reservation_utils.py -/

/-- The operating-hours portion of `validate_reservation_time`
(reservation_utils.py lines 60-78): parse open and close, reject times
before opening, compute the last bookable time as close minus one hour by
clock arithmetic, and reject later times.  A parse failure of either
bound raises and is caught by the blanket handler (lines 80-82). -/
def hoursCheck (dh : DayHours) (t : Nat) : Bool × String :=
  match parseHM dh.«open», parseHM dh.«close» with
  | some o, some c =>
    if t < o then
      (false, "Restaurant opens at " ++ dh.«open» ++ ". Please select a time after opening.")
    else
      let last := (c + 1440 - 60) % 1440
      if last < t then
        (false, "Last reservation is at " ++ formatHM last ++
          " (1 hour before closing at " ++ dh.«close» ++ ")")
      else (true, "")
  | _, _ => (false, "Error validating reservation time")

/-- `validate_reservation_time` (reservation_utils.py lines 15-82).  The
parameter `now` is the current instant on the axis of `instantOf`, read
from the restaurant timezone when one is configured and from the process
default clock otherwise; date parse failures and missing hour fields fall
into the blanket exception handler. -/
def validate_reservation_time (r : Restaurant) (dateStr timeStr : String)
    (now : Int) : Bool × String :=
  match parseDate dateStr with
  | none => (false, "Error validating reservation time")
  | some d =>
    let day := dateWeekday d
    match getOH r.operating_hours day with
    | none => (false, "Operating hours not available for " ++ dayNameCap day)
    | some dh =>
      if dh.is_closed then
        (false, "Restaurant is closed on " ++ dayNameCap day ++ "s")
      else
        match parseTimeAny timeStr with
        | none => (false, "Invalid time format. Please use HH:MM or HH:MM AM/PM format")
        | some t =>
          if instantOf d t < now then
            (false, "Reservation time has already passed. Please select a future time.")
          else hoursCheck dh t

def slotLoopAux : Nat → Int → Nat → List String
  | 0, _, _ => []
  | fuel + 1, last, cur =>
    if (cur : Int) ≤ last then formatHM cur :: slotLoopAux fuel last (cur + 30)
    else []

/-- The slot loop of `generate_available_time_slots` (lines 103-109):
30-minute steps from the opening time while at most one hour before the
closing time, where the bound lives on the same-day `datetime` axis and
may be negative.  Both bounds come from `%H:%M` parses, so the loop body
runs at most 46 times and 48 units of fuel never run out. -/
def slotLoop (last : Int) (cur : Nat) : List String := slotLoopAux 48 last cur

/-- `generate_available_time_slots` (reservation_utils.py lines 84-115). -/
def generate_available_time_slots (r : Restaurant) (dateStr : String) : List String :=
  match parseDate dateStr with
  | none => []
  | some d =>
    match getOH r.operating_hours (dateWeekday d) with
    | none => []
    | some dh =>
      if dh.is_closed then []
      else
        match parseHM dh.«open», parseHM dh.«close» with
        | some o, some c => slotLoop ((c : Int) - 60) o
        | _, _ => []

/-! ## restaurant_hours_utils.py -/

/-- The dictionary returned by `is_restaurant_open`; absent keys are
`none`, and `is_open = none` is the `None` of the exception branch. -/
structure OpenStatus where
  is_open : Option Bool
  status : String
  current_day : Option String := none
  current_time : Option String := none
  today_hours : Option DayHours := none
  next_change : Option String := none
  next_opening : Option String := none
  error : Bool := false
deriving DecidableEq

/-- `find_next_opening` (restaurant_hours_utils.py lines 91-106): scan the
next seven days for the first non-closed entry. -/
def find_next_opening (hours : List (Weekday × DayHours)) (day : Weekday) : String :=
  match (List.range' 1 7).filterMap (fun i =>
      let nd := Weekday.ofIndex ((day.toIndex + i) % 7)
      match getOH hours nd with
      | some h => if h.is_closed then none
          else some ("Opens " ++ dayNameCap nd ++ " at " ++ h.«open»)
      | none => none) with
  | s :: _ => s
  | [] => "Opening hours not available"

/-- `is_restaurant_open` (restaurant_hours_utils.py lines 9-89), with the
current weekday and current minutes-of-day in the restaurant timezone as
parameters.  A close of "24:00" only rewrites the string (line 47), so
`close_time` is read unbound at line 55 and the exception branch fires;
a close of "00:00" uses 23:59 as the close and takes the wrap test. -/
def is_restaurant_open (hours : List (Weekday × DayHours)) (day : Weekday)
    (t : Nat) : OpenStatus :=
  let closedResult : OpenStatus :=
    { is_open := some false, status := "closed_today",
      current_day := some (dayNameLower day), current_time := some (formatHM t),
      next_opening := some (find_next_opening hours day) }
  let unknownResult : OpenStatus := { is_open := none, status := "unknown", error := true }
  match getOH hours day with
  | none => closedResult
  | some dh =>
    if dh.is_closed then closedResult
    else
      match parseHM dh.«open» with
      | none => unknownResult
      | some o =>
        if dh.«close» = "24:00" then unknownResult
        else
          match (if dh.«close» = "00:00" then some 1439 else parseHM dh.«close») with
          | none => unknownResult
          | some c =>
            let isOpen : Bool :=
              if dh.«close» = "00:00" ∨ c < o then decide (o ≤ t) || decide (t ≤ c)
              else decide (o ≤ t) && decide (t ≤ c)
            { is_open := some isOpen,
              status := if isOpen then "open" else "closed",
              current_day := some (dayNameLower day),
              current_time := some (formatHM t),
              today_hours := some dh,
              next_change := some (if isOpen then "Closes at " ++ dh.«close»
                else if t < o then "Opens at " ++ dh.«open»
                else find_next_opening hours day) }

/-! ## gemini_service.py: restaurant matching -/

/-- The dictionaries describing a restaurant match; keys that a branch
does not set are `none`. -/
structure RestaurantMatch where
  found : Bool
  name : String
  confidence : Nat
  restaurant_id : Option Nat := none
  restaurant_data : Option Restaurant := none
  alternatives : Option (List String) := none
deriving DecidableEq

/-- Tokens of a normalized text with more than two characters, as used by
`_find_best_restaurant_match` (lines 422 and 427). -/
def longTokens (l : List Char) : List (List Char) :=
  (splitOnSpaces l).filter (fun w => w.length > 2)

/-- The distinct tokens shared by the search tokens and the long tokens
of a normalized name: `set(search_tokens) & set(name_tokens)` of line
438. -/
def tokenOverlap (searchTokens : List (List Char)) (nameNorm : List Char) :
    List (List Char) :=
  searchTokens.dedup.filter
    (fun t => (longTokens nameNorm).contains t)

/-- The confidence `_find_best_restaurant_match` computes for one
restaurant name (lines 437-454), in hundredths.
`re.search(rf"\b{tok}\b", name_norm)` on a normalized name, whose only
non-word characters are single spaces, holds exactly when the token is
one of the space-separated words. -/
def pairConfidence (searchTokens : List (List Char)) (nameNorm : List Char) : Nat :=
  if (tokenOverlap searchTokens nameNorm).length ≥ 2 then 90
  else if (tokenOverlap searchTokens nameNorm).length = 1 then
    match tokenOverlap searchTokens nameNorm with
    | t :: _ => if (splitOnSpaces nameNorm).contains t then 70 else 0
    | [] => 0
  else if searchTokens.any
      (fun t => t.length > 3 && (splitOnSpaces nameNorm).contains t) then 65
  else 0

/-- The result `_find_best_restaurant_match` returns on an exact
normalized-name match (lines 429-436). -/
def exactMatchResult (r : Restaurant) : RestaurantMatch :=
  { found := true, name := r.name, confidence := 100,
    restaurant_id := some r.id, restaurant_data := some r }

/-- The loop of `_find_best_restaurant_match` (lines 424-459) together
with the final selection (lines 460-475), threading the best candidate,
best confidence and alternatives list. -/
def findBestLoop (searchName : String) (sNorm : List Char)
    (sTokens : List (List Char)) :
    List Restaurant → Option Restaurant → Nat → List String → RestaurantMatch
  | [], best, conf, alts =>
    match best with
    | some b =>
      if conf > 55 then
        { found := true, name := b.name, confidence := conf,
          restaurant_id := some b.id, restaurant_data := some b,
          alternatives := some (alts.take 3) }
      else
        { found := false, name := searchName, confidence := 0,
          alternatives := some (alts.take 5) }
    | none =>
      { found := false, name := searchName, confidence := 0,
        alternatives := some (alts.take 5) }
  | r :: rest, best, conf, alts =>
    let nNorm := normalizeText r.name
    if nNorm = sNorm then exactMatchResult r
    else
      let c := pairConfidence sTokens nNorm
      findBestLoop searchName sNorm sTokens rest
        (if c > conf then some r else best)
        (if c > conf then c else conf)
        (if c > 60 then alts ++ [r.name] else alts)

/-- `GeminiService._find_best_restaurant_match` (gemini_service.py lines
414-475). -/
def find_best_restaurant_match (searchName : String) (rs : List Restaurant) :
    RestaurantMatch :=
  if searchName = "" then { found := false, name := "", confidence := 0 }
  else
    let sNorm := normalizeText searchName
    findBestLoop searchName sNorm (longTokens sNorm) rs none 0 []

/-! ### `_manual_restaurant_search` (lines 380-412)

The extraction patterns `at\s+([^,\s](?:[^,]*[^,\s])?)` and its `book`
and `reserve` variants match, at each scan position, the literal keyword,
at least one whitespace character, and then the characters up to the next
comma with trailing whitespace trimmed; the first captured character must
be neither a comma nor whitespace.  Greedy backtracking cannot produce
any other match, so the scanner below is exact. -/

/-- Attempt the pattern at the head of `l`; on success return the capture
and the remainder after the match. -/
def matchKwCapture (kw : List Char) (l : List Char) :
    Option (List Char × List Char) :=
  match charsBegin kw l, l.drop kw.length with
  | true, l1 =>
    match l1 with
    | [] => none
    | c :: _ =>
      if isPySpace c then
        let l2 := l1.dropWhile isPySpace
        match l2 with
        | [] => none
        | d :: _ =>
          if d = ',' then none
          else
            let cap := dropTrailing isPySpace (l2.takeWhile (· ≠ ','))
            some (cap, l2.drop cap.length)
      else none
  | false, _ => none

/-- `re.findall` for one keyword pattern: scan left to right, restart
after each match.  The fuel is the list length; every step consumes at
least one character, so it never runs out. -/
def findallKwAux (kw : List Char) : Nat → List Char → List (List Char)
  | 0, _ => []
  | _ + 1, [] => []
  | fuel + 1, c :: cs =>
    match matchKwCapture kw (c :: cs) with
    | some (cap, rest) => cap :: findallKwAux kw fuel rest
    | none => findallKwAux kw fuel cs

def findallKw (kw : String) (l : List Char) : List (List Char) :=
  findallKwAux kw.data l.length l

/-- The multi-word window candidates of lines 398-404: all windows of one
to three words whose joined length exceeds three characters. -/
def ngrams (ws : List String) : List String :=
  (List.range ws.length).flatMap (fun i =>
    (List.range' (i + 1) (min (i + 4) (ws.length + 1) - (i + 1))).filterMap
      (fun j =>
        let p := String.intercalate " " ((ws.drop i).take (j - i))
        if p.length > 3 then some p else none))

/-- The search over candidate names (lines 406-410): first name whose
match is found wins. -/
def firstFoundMatch (rs : List Restaurant) : List String → RestaurantMatch
  | [] => { found := false, name := "", confidence := 0 }
  | n :: ns =>
    let m := find_best_restaurant_match (String.mk (stripChars n.data)) rs
    if m.found then m else firstFoundMatch rs ns

/-- `GeminiService._manual_restaurant_search` (lines 380-412). -/
def manual_restaurant_search (command : String) (rs : List Restaurant) :
    RestaurantMatch :=
  let cl := lowerChars command.data
  let caps := findallKw "at" cl ++ findallKw "book" cl ++ findallKw "reserve" cl
  let words := (splitBy isPySpace cl).map (fun w => String.mk w)
  firstFoundMatch rs (caps.map (fun c => String.mk c) ++ ngrams words)

/-! ## gemini_service.py: guest-count extraction (lines 213-255) -/

/-- `max(1, min(20, guests))`. -/
def clampGuests (g : Nat) : Nat := max 1 (min 20 g)

/-- One attempt of `(\d+)\s*LIT` at the head of the list, where `LIT` is
the first matching literal of `alts` (regex alternation is ordered);
returns the captured value and the remainder after the literal. -/
def numLitMatch (alts : List (List Char)) (l : List Char) :
    Option (Nat × List Char) :=
  let ds := l.takeWhile isDigitChar
  if ds = [] then none
  else
    let l1 := (l.drop ds.length).dropWhile (· = ' ')
    match alts.find? (fun a => charsBegin a l1) with
    | some a => some (digitsVal ds, l1.drop a.length)
    | none => none

/-- `re.findall` of `(\d+)\s*LIT`, scanning left to right with restart
after each match (fuel as in `findallKwAux`). -/
def findallNumLitAux (alts : List (List Char)) : Nat → List Char → List Nat
  | 0, _ => []
  | _ + 1, [] => []
  | fuel + 1, c :: cs =>
    match numLitMatch alts (c :: cs) with
    | some (v, rest) => v :: findallNumLitAux alts fuel rest
    | none => findallNumLitAux alts fuel cs

def findallNumLit (alts : List String) (l : List Char) : List Nat :=
  findallNumLitAux (alts.map String.data) l.length l

/-- `re.search` of a keyword sequence joined by `\s+` and ending in
`\s+(\d+)`: try every start position, leftmost match wins. -/
def litsNumAt (lits : List (List Char)) (l : List Char) : Option Nat :=
  match lits with
  | [] =>
    let ds := l.takeWhile isDigitChar
    if ds = [] then none else some (digitsVal ds)
  | k :: ks =>
    if charsBegin k l then
      let l1 := l.drop k.length
      let sp := l1.takeWhile (· = ' ')
      if sp = [] then none else litsNumAt ks (l1.dropWhile (· = ' '))
    else none

def searchLitsNum (lits : List String) : List Char → Option Nat
  | [] => none
  | c :: cs =>
    match litsNumAt (lits.map String.data) (c :: cs) with
    | some v => some v
    | none => searchLitsNum lits cs

/-- `re.search` of `(\d+)\s*(people|persons|guests|seat|seats|person|guest)`. -/
def searchNumWord (alts : List String) : List Char → Option Nat
  | [] => none
  | c :: cs =>
    match numLitMatch (alts.map String.data) (c :: cs) with
    | some (v, _) => some v
    | none => searchNumWord alts cs

/-- The `number_words` dictionary of lines 218-224. -/
def numberWordVal (w : List Char) : Option Nat :=
  let s := String.mk w
  if s = "zero" then some 0 else if s = "one" then some 1
  else if s = "two" then some 2 else if s = "three" then some 3
  else if s = "four" then some 4 else if s = "five" then some 5
  else if s = "six" then some 6 else if s = "seven" then some 7
  else if s = "eight" then some 8 else if s = "nine" then some 9
  else if s = "ten" then some 10 else if s = "eleven" then some 11
  else if s = "twelve" then some 12 else if s = "thirteen" then some 13
  else if s = "fourteen" then some 14 else if s = "fifteen" then some 15
  else if s = "sixteen" then some 16 else if s = "seventeen" then some 17
  else if s = "eighteen" then some 18 else if s = "nineteen" then some 19
  else if s = "twenty" then some 20 else if s = "couple" then some 2
  else if s = "pair" then some 2 else if s = "single" then some 1
  else if s = "alone" then some 1 else none

/-- The word scan of lines 249-254: first number word whose value is
truthy wins; a literal zero falls through. -/
def wordScan : List (List Char) → Option Nat
  | [] => none
  | w :: ws =>
    match numberWordVal w with
    | some g => if g ≠ 0 then some g else wordScan ws
    | none => wordScan ws

/-- The ordered numeric patterns of lines 238-247. -/
def patternSearch (norm : List Char) : Option Nat :=
  match searchLitsNum ["party", "of"] norm with
  | some g => some g
  | none =>
    match searchLitsNum ["for"] norm with
    | some g => some g
    | none =>
      searchNumWord ["people", "persons", "guests", "seat", "seats",
        "person", "guest"] norm

/-- `GeminiService._extract_guest_count` (gemini_service.py lines
213-255). -/
def extract_guest_count (text : Option String) : Option Nat :=
  match text with
  | none => none
  | some s =>
    if s = "" then none
    else
      let norm := normalizeText s
      let adults := (findallNumLit ["adults", "adult"] norm).sum
      let kids := (findallNumLit ["kid", "kids", "child", "children"] norm).sum
      if adults ≠ 0 ∨ kids ≠ 0 then some (clampGuests (adults + kids))
      else
        match patternSearch norm with
        | some g => some (clampGuests g)
        | none => (wordScan (splitOnSpaces norm)).map clampGuests

/-! ## gemini_service.py: fallback processing and the orchestrator -/

/-- The dictionary `_fallback_processing` returns (lines 503-509). -/
structure IntentResult where
  intent : String
  confidence : Nat
  restaurant_match : RestaurantMatch
  response_message : String
  action_required : String
deriving DecidableEq

/-- Is one of the keywords a substring of the lowered command? -/
def kwAnyIn (kws : List String) (cl : List Char) : Bool :=
  kws.any (fun k => charsContain k.data cl)

/-- `GeminiService._fallback_processing` (gemini_service.py lines
477-509): keyword intent detection, first restaurant whose lowered name
or any of its whitespace-separated words occurs in the lowered command,
and `book_table` exactly for reservation intent. -/
def fallback_processing (command : String) (rs : List Restaurant) : IntentResult :=
  let cl := lowerChars command.data
  let intent :=
    if kwAnyIn ["book", "reserve", "table", "reservation"] cl then "reservation"
    else if kwAnyIn ["hello", "hi", "hey"] cl then "greeting"
    else "other"
  let rm : RestaurantMatch :=
    match rs.find? (fun r =>
        let nl := lowerChars r.name.data
        charsContain nl cl || (splitBy isPySpace nl).any (fun w => charsContain w cl)) with
    | some r =>
      { found := true, name := r.name, confidence := 70,
        restaurant_id := some r.id, restaurant_data := some r }
    | none => { found := false, name := "", confidence := 0 }
  { intent := intent, confidence := 60, restaurant_match := rm,
    response_message := "I understood your request. Let me help you with that.",
    action_required := if intent = "reservation" then "book_table" else "provide_info" }

/-- `process_voice_command` when the external model is disabled
(gemini_service.py lines 56-57): the orchestrator returns the fallback
result directly.  The enabled path calls the external model and is not
deterministic. -/
def process_voice_command_when_disabled (command : String)
    (rs : List Restaurant) : IntentResult :=
  fallback_processing command rs

/-! ## gemini_service.py: `_validate_ai_response` (lines 286-378) -/

/-- A JSON scalar as the validation code distinguishes them: Python
`isinstance(x, int)` is true for `int` and `bool`. -/
inductive JVal where
  | null
  | str (s : String)
  | int (n : Int)
  | bool (b : Bool)
deriving DecidableEq

/-- The `reservation_details` dictionary; a `none` field is an absent
key. -/
structure ReservationDetails where
  date : Option JVal := none
  time : Option JVal := none
  guests : Option JVal := none
deriving DecidableEq

/-- The `time_validation` dictionary written at lines 373-377. -/
structure TimeValidation where
  is_valid : Bool
  error : Option String := none
  message : Option String := none
deriving DecidableEq

/-- The parsed model response as `_validate_ai_response` reads and
mutates it; absent keys are `none`. -/
structure AIResponse where
  intent : Option String := none
  confidence : Option Nat := none
  restaurant_match : Option RestaurantMatch := none
  reservation_details : Option ReservationDetails := none
  response_message : Option String := none
  action_required : Option String := none
  time_validation : Option TimeValidation := none
deriving DecidableEq

/-- Lines 291-304: exact case-insensitive name lookup, falling back to
the fuzzy matcher. -/
def lookupAIMatch (rm : RestaurantMatch) (rs : List Restaurant) : RestaurantMatch :=
  match rs.find? (fun r => lowerChars r.name.data = lowerChars rm.name.data) with
  | some r => { rm with restaurant_id := some r.id, restaurant_data := some r }
  | none => find_best_restaurant_match rm.name rs

/-- The stop words of line 310. -/
def stopWords : List (List Char) :=
  ["restaurant", "hotel", "the", "cafe", "food", "diner"].map String.data

/-- The significant tokens of the suggested name (line 311): normalized
words that are not stop words and have more than two characters. -/
def significantTokens (suggested : String) : List (List Char) :=
  (splitOnSpaces (normalizeText suggested)).filter
    (fun w => !stopWords.contains w && w.length > 2)

/-- The hallucination-guard trigger of line 312: there is at least one
significant token and none of them occurs in the normalized command. -/
def guardFails (cmd : String) (suggested : String) : Bool :=
  let sig := significantTokens suggested
  !sig.isEmpty && !sig.any (fun w => charsContain w (normalizeText cmd))

/-- The restaurant-match validation block of `_validate_ai_response`
(lines 288-330).  The guard body is wrapped in a `try` whose handler
ignores exceptions; the embedded computation is total, so the handler is
dead.  `cmd` stands for `original_command or ""`. -/
def validateMatch (resp : AIResponse) (rs : List Restaurant) (cmd : String) :
    AIResponse :=
  match resp.restaurant_match with
  | none => resp
  | some rm =>
    if rm.found = true then
      let suggested := rm.name
      let rm1 := lookupAIMatch rm rs
      if guardFails cmd suggested = true then
        let manual := manual_restaurant_search cmd rs
        if manual.found = true ∧ max rm1.confidence (70) ≤ manual.confidence then
          { resp with
            restaurant_match := some manual
            response_message := some ("I found " ++ manual.name ++
              " from your command. Proceeding with details.")
            action_required := some (resp.action_required.getD "book_table") }
        else
          { resp with
            restaurant_match := some { rm1 with confidence := min rm1.confidence (50) }
            action_required := some "ask_clarification"
            response_message := some ("I found " ++ suggested ++
              ", but I\x27m not sure that\x27s what you said. Could you confirm the restaurant name?") }
      else { resp with restaurant_match := some rm1 }
    else resp

/-- Lines 334-339: a present date value must be a string or
`datetime.strptime` raises `TypeError`, which the `except ValueError`
handler does not catch; an unparseable string date becomes today. -/
def fixDate (todayStr : String) (d : ReservationDetails) :
    Except String ReservationDetails :=
  match d.date with
  | none => .ok d
  | some (JVal.str s) =>
    .ok (if (parseDate s).isSome then d else { d with date := some (JVal.str todayStr) })
  | some _ => .error "TypeError"

/-- Lines 340-345: same for the time value, with default "19:00". -/
def fixTime (d : ReservationDetails) : Except String ReservationDetails :=
  match d.time with
  | none => .ok d
  | some (JVal.str s) =>
    .ok (if (parseHM s).isSome then d else { d with time := some (JVal.str "19:00") })
  | some _ => .error "TypeError"

/-- Lines 346-352: a missing or non-`int` guests value is re-derived from
the original command, defaulting to 2. -/
def guestsFix (cmd : Option String) (d : ReservationDetails) : ReservationDetails :=
  match d.guests with
  | some (JVal.int _) => d
  | some (JVal.bool _) => d
  | _ => { d with guests := some (JVal.int ((extract_guest_count cmd).getD 2)) }

/-- The reservation-details normalization block (lines 331-352). -/
def validateDetails (cmd : Option String) (todayStr : String)
    (d : ReservationDetails) : Except String ReservationDetails :=
  match fixDate todayStr d with
  | .error e => .error e
  | .ok d1 =>
    match fixTime d1 with
    | .error e => .error e
    | .ok d2 => .ok (guestsFix cmd d2)

/-- The f-string rendering of an optional detail value (an absent key
prints as `None` through `dict.get`). -/
def jvalOptStr : Option JVal → String
  | none => "None"
  | some JVal.null => "None"
  | some (JVal.str s) => s
  | some (JVal.int n) => intDec n
  | some (JVal.bool b) => if b then "True" else "False"

/-- The hours validation block of lines 353-377, reached only when the
action is `make_reservation` and the match carries a truthy restaurant
id.  Every restaurant document in this model carries the
`operating_hours` key, so the membership test of line 362 holds. -/
def hoursGate (resp : AIResponse) (rs : List Restaurant) (det : ReservationDetails)
    (todayStr : String) (now : Int) : AIResponse :=
  match resp.action_required, resp.restaurant_match.bind (fun m => m.restaurant_id) with
  | some act, some rid =>
    if act = "make_reservation" ∧ rid ≠ 0 then
      match rs.find? (fun r => r.id == rid) with
      | some sel =>
        let dateArg := match det.date with | some (JVal.str s) => s | _ => todayStr
        let timeArg := match det.time with | some (JVal.str s) => s | _ => "19:00"
        match validate_reservation_time sel dateArg timeArg now with
        | (true, _) => resp
        | (false, err) =>
          { resp with
            action_required := some "ask_clarification"
            response_message := some ("I\x27m sorry, but bookings are not available at "
              ++ jvalOptStr det.time ++ " on " ++ jvalOptStr det.date ++ ". " ++ err
              ++ " Please choose a different time within the restaurant\x27s operating hours.")
            time_validation := some { is_valid := false, error := some err, message := some err } }
      | none => resp
    else resp
  | _, _ => resp

/-- `GeminiService._validate_ai_response` (gemini_service.py lines
286-378): match validation, then, when `reservation_details` is present,
detail normalization (which can raise) and the hours gate.  `todayStr`
is `datetime.now().strftime("%Y-%m-%d")` and `now` the current instant. -/
def validate_ai_response (resp : AIResponse) (rs : List Restaurant)
    (cmd : Option String) (todayStr : String) (now : Int) :
    Except String AIResponse :=
  let r1 := validateMatch resp rs (cmd.getD "")
  match r1.reservation_details with
  | none => .ok r1
  | some det =>
    match validateDetails cmd todayStr det with
    | .error e => .error e
    | .ok det2 =>
      .ok (hoursGate { r1 with reservation_details := some det2 } rs det2 todayStr now)

/-! ## Sample data for concrete evaluations -/

/-- A restaurant open Mondays 17:00-23:00. -/
def sampleOpenMon : Restaurant :=
  ⟨1, "Sample Bistro", [(Weekday.monday, ⟨"17:00", "23:00", false⟩)], none⟩

/-- A restaurant whose Monday entry is marked closed. -/
def sampleClosedMon : Restaurant :=
  ⟨2, "Sample Closed", [(Weekday.monday, ⟨"17:00", "23:00", true⟩)], none⟩

/-- A restaurant open Mondays 17:00 with a midnight close. -/
def sampleOvernight : Restaurant :=
  ⟨3, "Sample Overnight", [(Weekday.monday, ⟨"17:00", "00:00", false⟩)], none⟩

/-- The candidate used by the fallback-determinism scenario. -/
def goldenSpoon : Restaurant := ⟨4, "The Golden Spoon", [], none⟩

/-- The candidate used by the word-boundary scenario. -/
def nagasai : Restaurant := ⟨5, "Nagasai", [], none⟩

/-- A claimed match whose name shares no significant token with the
guard-scenario command. -/
def pizzaWorldClaim : RestaurantMatch :=
  { found := true, name := "Pizza World", confidence := 90 }

/-- A model response claiming the above match. -/
def respPizzaWorld : AIResponse := { restaurant_match := some pizzaWorldClaim }

/-! ## Theorems -/

/-- C1, counterexample: on the deterministic fallback path the
orchestrator answers the command "please reserve" over an empty candidate
list with `action_required = "book_table"` although no restaurant match
was found, no reservation time exists anywhere in the result and
`validate_reservation_time` was never consulted.  The booking-gating
invariant is therefore false as stated. -/
theorem fallback_gating_counterexample :
    (process_voice_command_when_disabled "please reserve" []).action_required
        = "book_table" ∧
    (process_voice_command_when_disabled "please reserve" []).restaurant_match.found
        = false :=
  ⟨rfl, rfl⟩

/-- C1, amended: in every intent the orchestrator produces on the
deterministic fallback path, `action_required = "book_table"` holds
exactly when the classified intent is reservation, irrespective of the
restaurant match, of time presence and of time validation. -/
theorem fallback_action_iff_reservation_intent (cmd : String) (rs : List Restaurant) :
    (process_voice_command_when_disabled cmd rs).action_required = "book_table" ↔
      (process_voice_command_when_disabled cmd rs).intent = "reservation" := by
  unfold process_voice_command_when_disabled fallback_processing
  dsimp only
  split_ifs <;> simp_all

/-- C2, counterexample: the fallback classifies "hello at golden spoon"
as a greeting yet finds the restaurant The Golden Spoon, and still
returns `action_required = "provide_info"`; the action is therefore not
determined by whether a restaurant was found. -/
theorem fallback_found_counterexample :
    (fallback_processing "hello at golden spoon" [goldenSpoon]).restaurant_match.found
        = true ∧
    (fallback_processing "hello at golden spoon" [goldenSpoon]).action_required
        = "provide_info" :=
  ⟨rfl, rfl⟩

/-- C2, amended: the fallback returns `action_required = "book_table"`
exactly when the classified intent is reservation (else
`provide_info`), and the command "book a table for 4 tonight at Golden
Spoon" against a candidate list containing The Golden Spoon yields a
reservation intent and a found match on The Golden Spoon; the embedded
fallback is a total function, so the scenario cannot throw. -/
theorem fallback_contract :
    (∀ (cmd : String) (rs : List Restaurant),
      (fallback_processing cmd rs).action_required =
        (if (fallback_processing cmd rs).intent = "reservation"
          then "book_table" else "provide_info")) ∧
    (fallback_processing "book a table for 4 tonight at Golden Spoon"
        [goldenSpoon]).intent = "reservation" ∧
    (fallback_processing "book a table for 4 tonight at Golden Spoon"
        [goldenSpoon]).restaurant_match.found = true ∧
    (fallback_processing "book a table for 4 tonight at Golden Spoon"
        [goldenSpoon]).restaurant_match.name = "The Golden Spoon" :=
  ⟨fun _ _ => rfl, rfl, rfl, rfl⟩

/-- C3, counterexample: a reservation instant exactly equal to `now`
passes the past-time check and is accepted (the claim demands the
past-time failure whenever the instant is not strictly after now), and
on a day whose schedule entry is marked closed a past instant is
rejected with the closed-day reason rather than the past-time reason. -/
theorem past_time_boundary_counterexample :
    validate_reservation_time sampleOpenMon "2025-10-13" "19:00"
        (instantOf ⟨2025, 10, 13⟩ 1140) = (true, "") ∧
    validate_reservation_time sampleClosedMon "2020-01-06" "19:00"
        (instantOf ⟨2025, 10, 13⟩ 0)
      = (false, "Restaurant is closed on Mondays") :=
  ⟨rfl, rfl⟩

/-- C3, amended: for every restaurant whose schedule entry for the
requested weekday exists and is not closed, and every parseable time,
`validate_reservation_time` fails with the past-time reason whenever the
combined instant is strictly before `now` (on the zone basis the `now`
parameter embodies), and when the instant is at or after `now` the
past-time check passes and the result is exactly the operating-hours
check; the past-time check thus precedes and ignores operating hours. -/
theorem past_time_rejection_strict_before (r : Restaurant)
    (dateStr timeStr : String) (now : Int) (d : Date) (dh : DayHours) (t : Nat)
    (h1 : parseDate dateStr = some d)
    (h2 : getOH r.operating_hours (dateWeekday d) = some dh)
    (h3 : dh.is_closed = false)
    (h4 : parseTimeAny timeStr = some t) :
    (instantOf d t < now →
      validate_reservation_time r dateStr timeStr now =
        (false, "Reservation time has already passed. Please select a future time.")) ∧
    (now ≤ instantOf d t →
      validate_reservation_time r dateStr timeStr now = hoursCheck dh t) := by
  simp only [validate_reservation_time, h1, h2, h3, h4, Bool.false_eq_true,
    if_false, ite_false]
  constructor
  · intro h
    rw [if_pos h]
  · intro h
    rw [if_neg (not_lt.mpr h)]

/-- C3, witness for the amended theorem: the sample restaurant rejects a
Monday 19:00 request one minute after that instant has passed. -/
theorem past_time_rejection_strict_before_witness :
    validate_reservation_time sampleOpenMon "2025-10-13" "19:00"
        (instantOf ⟨2025, 10, 13⟩ 1140 + 1) =
      (false, "Reservation time has already passed. Please select a future time.") :=
  (past_time_rejection_strict_before sampleOpenMon "2025-10-13" "19:00"
      (instantOf ⟨2025, 10, 13⟩ 1140 + 1) ⟨2025, 10, 13⟩
      ⟨"17:00", "23:00", false⟩ 1140 rfl rfl rfl rfl).1 (by decide)

/-- C4, code bug: the normalization step of `_validate_ai_response`
raises `TypeError` to its caller when the reservation time value is the
JSON null the prompt itself specifies for an unspecified time, because
`datetime.strptime(None, ...)` raises `TypeError` and the handler
catches only `ValueError`; an unparseable string time is, as the claim
says, replaced by "19:00" and a non-numeric guests value is re-derived
from the command. -/
theorem null_time_raises_typeerror :
    validate_ai_response
        { reservation_details := some
            { date := some (JVal.str "2025-10-13"), time := some JVal.null,
              guests := some (JVal.int 4) } }
        [] (some "book a table for 4 tonight") "2025-10-12" 0
      = .error "TypeError" ∧
    validateDetails (some "book for 4") "2025-10-12" { time := some (JVal.str "7 pm") }
      = .ok { time := some (JVal.str "19:00"), guests := some (JVal.int 4) } :=
  ⟨rfl, rfl⟩

/-- C5: whenever the model response claims a restaurant match whose
significant name tokens all fail to occur in the normalized original
command, `_validate_ai_response` re-runs the manual pattern matcher on
the command; the manual result replaces the match exactly when it is
found with confidence at least the maximum of the (post-lookup) model
confidence and 0.7, and otherwise the match keeps its data with
confidence capped at 0.5, the action is forced to `ask_clarification`
and a confirmation-request message is emitted. -/
theorem hallucination_guard_resolution (resp : AIResponse) (rs : List Restaurant)
    (cmd : String) (rm : RestaurantMatch)
    (h1 : resp.restaurant_match = some rm) (h2 : rm.found = true)
    (h3 : guardFails cmd rm.name = true) :
    ((manual_restaurant_search cmd rs).found = true ∧
        max (lookupAIMatch rm rs).confidence (70)
          ≤ (manual_restaurant_search cmd rs).confidence →
      (validateMatch resp rs cmd).restaurant_match
          = some (manual_restaurant_search cmd rs) ∧
      (validateMatch resp rs cmd).action_required
          = some (resp.action_required.getD "book_table")) ∧
    (¬ ((manual_restaurant_search cmd rs).found = true ∧
        max (lookupAIMatch rm rs).confidence (70)
          ≤ (manual_restaurant_search cmd rs).confidence) →
      (validateMatch resp rs cmd).restaurant_match
          = some { lookupAIMatch rm rs with
                   confidence := min (lookupAIMatch rm rs).confidence (50) } ∧
      (validateMatch resp rs cmd).action_required = some "ask_clarification" ∧
      (validateMatch resp rs cmd).response_message
          = some ("I found " ++ rm.name ++
              ", but I\x27m not sure that\x27s what you said. Could you confirm the restaurant name?")) := by
  simp only [validateMatch, h1, h2, h3, if_true]
  constructor
  · intro h
    rw [if_pos h]
    exact ⟨rfl, rfl⟩
  · intro h
    rw [if_neg h]
    exact ⟨rfl, rfl, rfl⟩

/-- C5, witness: a response suggesting Pizza World against the command
"book a table at golden spoon" trips the guard, and the manual match on
The Golden Spoon (confidence 0.9, above the 0.7 floor and the
post-lookup confidence 0) replaces it. -/
theorem hallucination_guard_resolution_witness :
    (validateMatch respPizzaWorld [goldenSpoon]
        "book a table at golden spoon").restaurant_match
      = some (manual_restaurant_search "book a table at golden spoon" [goldenSpoon]) :=
  ((hallucination_guard_resolution respPizzaWorld [goldenSpoon]
      "book a table at golden spoon" pizzaWorldClaim
      rfl rfl (by decide)).1 (by decide)).1

/-- C6: when the open and close strings parse and the requested time is
at or after opening, `validate_reservation_time`s hours check accepts
exactly the times at most `close` minus one hour (computed by same-day
clock arithmetic) and rejects later times with the last-reservation
reason; concretely, a Monday 17:00-23:00 schedule accepts 22:00 and
rejects 22:01 with last booking 22:00. -/
theorem last_booking_cutoff :
    (∀ (dh : DayHours) (o c t : Nat), parseHM dh.«open» = some o →
      parseHM dh.«close» = some c → o ≤ t →
      hoursCheck dh t =
        (if t ≤ (c + 1440 - 60) % 1440 then ((true : Bool), "")
         else (false, "Last reservation is at " ++ formatHM ((c + 1440 - 60) % 1440)
           ++ " (1 hour before closing at " ++ dh.«close» ++ ")"))) ∧
    validate_reservation_time sampleOpenMon "2025-10-13" "22:00" 0 = (true, "") ∧
    validate_reservation_time sampleOpenMon "2025-10-13" "22:01" 0 =
      (false, "Last reservation is at 22:00 (1 hour before closing at 23:00)") := by
  refine ⟨?_, rfl, rfl⟩
  intro dh o c t h1 h2 h3
  simp only [hoursCheck, h1, h2]
  rw [if_neg (Nat.not_lt.mpr h3)]
  rcases le_or_lt t ((c + 1440 - 60) % 1440) with h | h
  · rw [if_neg (Nat.not_lt.mpr h), if_pos h]
  · rw [if_pos h, if_neg (Nat.not_le.mpr h)]

/-- C6, witness: the 17:00-23:00 schedule at 22:00, through the general
cutoff equation. -/
theorem last_booking_cutoff_witness :
    hoursCheck ⟨"17:00", "23:00", false⟩ 1320 =
      (if 1320 ≤ (1380 + 1440 - 60) % 1440 then ((true : Bool), "")
       else (false, "Last reservation is at " ++ formatHM ((1380 + 1440 - 60) % 1440)
         ++ " (1 hour before closing at " ++ "23:00" ++ ")")) :=
  last_booking_cutoff.1 ⟨"17:00", "23:00", false⟩ 1020 1380 1320 rfl rfl (by decide)

/-- C7: a schedule entry open 17:00 with close "00:00" is reported open
both at 23:30 and at 00:30 (minutes 1410 and 30) of that service day,
and slot generation for such a day emits no slots at all, in particular
no negative-duration ones. -/
theorem overnight_close_open_status :
    (is_restaurant_open [(Weekday.monday, ⟨"17:00", "00:00", false⟩)]
        Weekday.monday 1410).is_open = some true ∧
    (is_restaurant_open [(Weekday.monday, ⟨"17:00", "00:00", false⟩)]
        Weekday.monday 30).is_open = some true ∧
    generate_available_time_slots sampleOvernight "2025-10-13" = [] :=
  ⟨rfl, rfl, rfl⟩

/-- C8: the fuzzy matcher does not match the bare substring "sai" against
the restaurant Nagasai but matches "nagasai" exactly with confidence 1.0,
and in general the single-token confidence 0.7 is only ever assigned when
the shared token occurs as a whole space-separated word of the
normalized restaurant name. -/
theorem word_boundary_matching :
    (find_best_restaurant_match "sai" [nagasai]).found = false ∧
    ((find_best_restaurant_match "nagasai" [nagasai]).found = true ∧
      (find_best_restaurant_match "nagasai" [nagasai]).confidence = 100) ∧
    (∀ (sts : List (List Char)) (nn : List Char),
      pairConfidence sts nn = 70 →
      ∃ tok, tok ∈ sts ∧ tok ∈ splitOnSpaces nn) := by
  refine ⟨rfl, ⟨rfl, rfl⟩, ?_⟩
  intro sts nn h
  unfold pairConfidence at h
  split_ifs at h with hov h1 hph
  all_goals try exact absurd h (by decide)
  split at h
  rename_i tok rest heq
  split_ifs at h with hw
  all_goals try exact absurd h (by decide)
  refine ⟨tok, ?_, ?_⟩
  · have hmem : tok ∈ tokenOverlap sts nn := by
      rw [heq]; exact List.mem_cons_self tok rest
    unfold tokenOverlap at hmem
    exact List.mem_dedup.mp (List.mem_of_mem_filter hmem)
  · simpa [List.contains, List.elem_iff] using hw

/-- C8, witness for the general whole-word clause: the token "golden"
scores 0.7 against "golden dragon" because it is one of its words. -/
theorem word_boundary_matching_witness :
    ∃ tok, tok ∈ ["golden".data] ∧ tok ∈ splitOnSpaces "golden dragon".data :=
  word_boundary_matching.2.2 ["golden".data] "golden dragon".data (by decide)

/-- C9: every value the guest-count extractor returns lies in [1, 20],
and a literal "zero" number word is treated as no match: "table for
zero" extracts nothing. -/
theorem guest_count_clamped :
    (∀ (text : Option String) (g : Nat),
      extract_guest_count text = some g → 1 ≤ g ∧ g ≤ 20) ∧
    extract_guest_count (some "table for zero") = none := by
  refine ⟨?_, rfl⟩
  intro text g h
  have hb : ∀ x : Nat, 1 ≤ clampGuests x ∧ clampGuests x ≤ 20 := fun x =>
    ⟨le_max_left 1 (min 20 x), max_le (by norm_num) (min_le_left 20 x)⟩
  obtain ⟨x, hx⟩ : ∃ x, g = clampGuests x := by
    rcases text with _ | s
    · simp [extract_guest_count] at h
    · unfold extract_guest_count at h
      dsimp only at h
      split at h
      · simp at h
      · split at h
        · exact ⟨_, (Option.some.inj h).symm⟩
        · split at h
          · exact ⟨_, (Option.some.inj h).symm⟩
          · obtain ⟨a, -, ha⟩ := Option.map_eq_some'.mp h
            exact ⟨a, ha.symm⟩
  exact hx ▸ hb x

/-- C9, witness: "party of 30" clamps to 20, inside the bounds. -/
theorem guest_count_clamped_witness :
    extract_guest_count (some "party of 30") = some 20 ∧ 1 ≤ 20 ∧ 20 ≤ 20 :=
  ⟨rfl, guest_count_clamped.1 (some "party of 30") 20 rfl⟩

/-- C10: for any schedule whose entry for the current weekday is not
closed, has a parseable opening time and closes at the literal "00:00",
`is_restaurant_open` reports open at every minute of the day, including
minutes strictly before the stated opening time, because the wrap test
degenerates to `current_time ≤ 23:59`. -/
theorem midnight_close_always_open (hours : List (Weekday × DayHours))
    (day : Weekday) (dh : DayHours) (t o : Nat)
    (h1 : getOH hours day = some dh) (h2 : dh.is_closed = false)
    (h3 : dh.«close» = "00:00") (h4 : parseHM dh.«open» = some o)
    (h5 : t ≤ 1439) :
    (is_restaurant_open hours day t).is_open = some true := by
  simp only [is_restaurant_open, h1, h2, h3, h4, Bool.false_eq_true, if_false]
  norm_num
  rw [if_neg (by decide : ("00:00" : String) ≠ "24:00")]
  simp only [Option.some.injEq, Bool.or_eq_true, decide_eq_true_eq]
  exact Or.inr h5

/-- C10, witness: the overnight sample schedule is reported open at
01:40, well before its 17:00 opening. -/
theorem midnight_close_always_open_witness :
    (is_restaurant_open [(Weekday.monday, ⟨"17:00", "00:00", false⟩)]
        Weekday.monday 100).is_open = some true :=
  midnight_close_always_open [(Weekday.monday, ⟨"17:00", "00:00", false⟩)]
    Weekday.monday ⟨"17:00", "00:00", false⟩ 100 1020 rfl rfl rfl rfl
    (by norm_num)

end Booking
